import Mathlib

/-!
Verification of the clothing recommendation engine of the
weather-based clothing advisor.

The definitions below are a shallow embedding of
`src/agent/core/clothing_logic.py`, `src/agent/core/models.py` and
`src/shared/constants.py`.  Python floats are modelled as rationals
(`ℚ`), Python ints as `ℤ`/`ℕ`, `Optional[str]` as `Option String`.
Python's `f"{x:.0f}"` formatting is modelled by rounding the rational
half-to-even to an integer (with the `-0` case of negative values that
round to zero) and rendering it in decimal.
-/

set_option linter.unusedVariables false

/-- From `shared/constants.py`: `WIND_THRESHOLD_BREEZY = 15.0`. -/
def WIND_THRESHOLD_BREEZY : ℚ := 15

/-- From `shared/constants.py`: `WIND_THRESHOLD_WINDY = 25.0`. -/
def WIND_THRESHOLD_WINDY : ℚ := 25

/-- From `shared/constants.py`: `HUMIDITY_HIGH = 70`. -/
def HUMIDITY_HIGH : ℤ := 70

/-- From `shared/constants.py`: `SC_002_MIN_RECOMMENDATIONS = 3`. -/
def SC_002_MIN_RECOMMENDATIONS : ℕ := 3

/-- From `shared/constants.py`: `SC_002_MAX_RECOMMENDATIONS = 5`. -/
def SC_002_MAX_RECOMMENDATIONS : ℕ := 5

/-- From `shared/constants.py`: `PRECIP_TYPE_RAIN = "rain"`. -/
def PRECIP_TYPE_RAIN : String := "rain"

/-- From `shared/constants.py`: `PRECIP_TYPE_SNOW = "snow"`. -/
def PRECIP_TYPE_SNOW : String := "snow"

/-- From `shared/constants.py`: `classify_temperature`, an if/elif
chain with strict `<` comparisons. -/
def classify_temperature (temp_fahrenheit : ℚ) : String :=
  if temp_fahrenheit < 32 then "Winter"
  else if temp_fahrenheit < 50 then "Cool"
  else if temp_fahrenheit < 70 then "Moderate"
  else if temp_fahrenheit < 85 then "Warm"
  else "Hot"

/-- From `models.py`: the `ClothingCategory` enum. -/
inductive ClothingCategory where
  | outerwear
  | layers
  | accessories
  | footwear
deriving DecidableEq, Repr

/-- From `models.py`: the `ClothingItem` dataclass
(name, category, reason, priority). -/
structure ClothingItem where
  name : String
  category : ClothingCategory
  reason : String
  priority : ℤ
deriving DecidableEq, Repr

/-- From `models.py`: the `WeatherData` dataclass. -/
structure WeatherData where
  zip_code : String
  location : String
  temperature : ℚ
  feels_like : ℚ
  humidity : ℤ
  wind_speed : ℚ
  description : String
  precipitation_type : Option String := none
  precipitation_probability : Option ℚ := none
  conditions : List String := []
deriving DecidableEq, Repr

/-- From `models.py`: the `ClothingRecommendation` dataclass. -/
structure ClothingRecommendation where
  weather : WeatherData
  items : List ClothingItem
  summary : String
  temperature_category : String
  special_considerations : List String := []
deriving DecidableEq, Repr

/-- Round a rational half-to-even to an integer, as Python float
formatting with `:.0f` does on the represented value.  The fractional
part `q - ⌊q⌋` is compared against `1/2` by cross-multiplication
(`q - f < 1/2 ↔ 2 num < (2 f + 1) den` for the positive denominator),
keeping the definition kernel-computable. -/
def roundHalfEven (q : ℚ) : ℤ :=
  let f := ⌊q⌋
  if 2 * q.num < (2 * f + 1) * (q.den : ℤ) then f
  else if (2 * f + 1) * (q.den : ℤ) < 2 * q.num then f + 1
  else if f % 2 = 0 then f else f + 1

/-- Python's `f"{q:.0f}"`: round half-to-even, keeping the sign of a
negative value that rounds to zero (`f"{-0.3:.0f}" = "-0"`). -/
def formatF0 (q : ℚ) : String :=
  let n := roundHalfEven q
  if n = 0 ∧ q < 0 then "-0" else toString n

/-- Python's `str.lower()`: lowercase every character (the item names
and category labels of the source are plain ASCII, on which this agrees
with Unicode lowercasing). -/
def strLower (s : String) : String := ⟨s.data.map Char.toLower⟩

/-- Python truthiness of an `Optional[str]`: `None` and `""` are
falsy, every other string is truthy. -/
def strTruthy : Option String → Bool
  | none => false
  | some s => !(s == "")

/-- From `clothing_logic.py`: `ClothingAdvisor._get_temperature_items`,
the fixed per-category bundle (the trailing `else` is the Hot branch). -/
def get_temperature_items (temp_category : String) (weather : WeatherData) :
    List ClothingItem :=
  if temp_category = "Winter" then
    [⟨"Heavy winter coat", .outerwear,
      "Essential for " ++ formatF0 weather.temperature ++ "°F freezing temperatures", 1⟩,
     ⟨"Warm layers (thermal underwear or fleece)", .layers,
      "Provides insulation under your coat", 1⟩,
     ⟨"Winter hat and gloves", .accessories,
      "Protects extremities from cold", 1⟩,
     ⟨"Insulated boots", .footwear,
      "Keeps feet warm and dry", 2⟩]
  else if temp_category = "Cool" then
    [⟨"Medium-weight jacket", .outerwear,
      "Appropriate for " ++ formatF0 weather.temperature ++ "°F cool weather", 1⟩,
     ⟨"Long-sleeve shirt or sweater", .layers,
      "Provides comfortable warmth", 1⟩,
     ⟨"Light scarf (optional)", .accessories,
      "Extra warmth for neck area", 3⟩]
  else if temp_category = "Moderate" then
    [⟨"Light jacket or cardigan", .outerwear,
      "Perfect for " ++ formatF0 weather.temperature ++ "°F mild temperatures", 2⟩,
     ⟨"Long-sleeve shirt or light layers", .layers,
      "Versatile for changing conditions", 1⟩]
  else if temp_category = "Warm" then
    [⟨"Short-sleeve shirt or light top", .layers,
      "Comfortable for " ++ formatF0 weather.temperature ++ "°F warm weather", 1⟩,
     ⟨"Light pants or shorts", .layers,
      "Keeps you cool in warm temperatures", 1⟩,
     ⟨"Sunglasses", .accessories,
      "Protection from sun", 2⟩]
  else
    [⟨"Lightweight, breathable clothing", .layers,
      "Essential for " ++ formatF0 weather.temperature ++ "°F hot weather", 1⟩,
     ⟨"Shorts or light skirt", .layers,
      "Maximum airflow and comfort", 1⟩,
     ⟨"Wide-brim hat or cap", .accessories,
      "Sun protection for face and neck", 1⟩,
     ⟨"Sunglasses", .accessories,
      "Eye protection from sun", 2⟩]

/-- From `clothing_logic.py`: `ClothingAdvisor._get_precipitation_items`. -/
def get_precipitation_items (precip_type : String) (temp_category : String) :
    List ClothingItem :=
  if precip_type = PRECIP_TYPE_RAIN then
    [⟨"Waterproof jacket or rain coat", .outerwear, "Stay dry in the rain", 1⟩,
     ⟨"Umbrella", .accessories, "Additional rain protection", 2⟩,
     ⟨"Waterproof shoes or boots", .footwear, "Keep feet dry", 1⟩]
  else if precip_type = PRECIP_TYPE_SNOW then
    ⟨"Waterproof winter boots", .footwear, "Essential for snow and slush", 1⟩ ::
      (if temp_category ≠ "Winter" then
        [⟨"Waterproof gloves", .accessories, "Keeps hands warm and dry in snow", 1⟩]
      else [])
  else []

/-- From `clothing_logic.py`: `ClothingAdvisor._get_wind_items`. -/
def get_wind_items (wind_speed : ℚ) (temp_category : String) :
    List ClothingItem :=
  if WIND_THRESHOLD_WINDY < wind_speed then
    if temp_category = "Winter" ∨ temp_category = "Cool" then
      [⟨"Wind-resistant outer layer", .outerwear,
        "Blocks " ++ formatF0 wind_speed ++ " mph winds", 1⟩]
    else
      [⟨"Windbreaker", .outerwear,
        "Protection from " ++ formatF0 wind_speed ++ " mph winds", 1⟩]
  else
    if temp_category = "Winter" ∨ temp_category = "Cool" ∨ temp_category = "Moderate" then
      [⟨"Light windbreaker or jacket", .outerwear,
        "Light wind protection for breezy conditions", 2⟩]
    else []

/-- The name-based deduplication loop of
`ClothingAdvisor._dedupe_and_prioritize`: keep an item when its
lowercased name was not seen before (first occurrence wins). -/
def dedupeAux (seen : List String) : List ClothingItem → List ClothingItem
  | [] => []
  | i :: rest =>
    if seen.contains (strLower i.name) then dedupeAux seen rest
    else i :: dedupeAux (strLower i.name :: seen) rest

/-- Stable insertion of an item into a priority-sorted list: the new
item goes after every earlier item of strictly smaller priority and
before equal-priority items coming later in the recursion. -/
def insertByPriority (x : ClothingItem) : List ClothingItem → List ClothingItem
  | [] => [x]
  | y :: ys => if y.priority < x.priority then y :: insertByPriority x ys
               else x :: y :: ys

/-- Stable sort by ascending priority, modelling Python's stable
`list.sort(key=lambda x: x.priority)`. -/
def sortByPriority : List ClothingItem → List ClothingItem
  | [] => []
  | x :: xs => insertByPriority x (sortByPriority xs)

/-- From `clothing_logic.py`: `ClothingAdvisor._dedupe_and_prioritize`. -/
def dedupe_and_prioritize (items : List ClothingItem) : List ClothingItem :=
  sortByPriority (dedupeAux [] items)

/-- One filler item of the padding loop in
`ClothingAdvisor._enforce_item_count`, chosen from the current list and
the temperature category. -/
def fillerItem (items : List ClothingItem) (temp_category : String) : ClothingItem :=
  if temp_category = "Winter" ∨ temp_category = "Cool" then
    if !(items.any fun i => i.category == ClothingCategory.footwear) then
      ⟨"Comfortable closed-toe shoes", .footwear,
       "Appropriate footwear for cooler weather", 3⟩
    else
      ⟨"Long pants", .layers, "Keeps legs warm in cooler weather", 3⟩
  else
    if !(items.any fun i => i.category == ClothingCategory.footwear) then
      ⟨"Comfortable shoes", .footwear, "Appropriate footwear for the weather", 3⟩
    else
      ⟨"Light hat or cap", .accessories, "Optional sun protection", 3⟩

/-- The `while len(items) < SC_002_MIN_RECOMMENDATIONS` padding loop of
`ClothingAdvisor._enforce_item_count`; each iteration appends exactly
one filler item, so the length grows by one per iteration. -/
def padItems (items : List ClothingItem) (temp_category : String) :
    List ClothingItem :=
  if h : items.length < SC_002_MIN_RECOMMENDATIONS then
    padItems (items ++ [fillerItem items temp_category]) temp_category
  else items
termination_by SC_002_MIN_RECOMMENDATIONS - items.length
decreasing_by simp [SC_002_MIN_RECOMMENDATIONS] at *; omega

/-- From `clothing_logic.py`: `ClothingAdvisor._enforce_item_count`
(truncate to 5 when too long, then pad to 3 when too short; the
`weather` parameter is unused, as in the source). -/
def enforce_item_count (items : List ClothingItem) (temp_category : String)
    (weather : WeatherData) : List ClothingItem :=
  let items :=
    if SC_002_MAX_RECOMMENDATIONS < items.length then
      items.take SC_002_MAX_RECOMMENDATIONS
    else items
  padItems items temp_category

/-- From `clothing_logic.py`: `ClothingAdvisor._generate_summary`
(the `considerations` parameter is unused, as in the source). -/
def generate_summary (temp_category : String) (weather : WeatherData)
    (considerations : List String) : String :=
  let base := "For " ++ weather.location ++ " at " ++ formatF0 weather.temperature
    ++ "°F (" ++ strLower temp_category ++ " weather)"
  let base := if strTruthy weather.precipitation_type then
      base ++ " with " ++ weather.precipitation_type.getD ""
    else base
  let base := if WIND_THRESHOLD_BREEZY < weather.wind_speed then
      base ++ " and " ++ formatF0 weather.wind_speed ++ " mph winds"
    else base
  base ++ ": dress in layers appropriate for the conditions."

/-- The candidate item list built by
`ClothingAdvisor.generate_recommendations` before dedup/priority/count
enforcement: temperature bundle, then precipitation items (only when
`precipitation_type` is truthy), then wind items (only when
`wind_speed > 15`). -/
def candidateItems (weather : WeatherData) : List ClothingItem :=
  let temp_category := classify_temperature weather.temperature
  (get_temperature_items temp_category weather)
  ++ (if strTruthy weather.precipitation_type then
        get_precipitation_items (weather.precipitation_type.getD "") temp_category
      else [])
  ++ (if WIND_THRESHOLD_BREEZY < weather.wind_speed then
        get_wind_items weather.wind_speed temp_category
      else [])

/-- The special considerations accumulated by
`ClothingAdvisor.generate_recommendations`, in source order:
precipitation note, wind note, humidity note. -/
def specialConsiderations (weather : WeatherData) : List String :=
  let temp_category := classify_temperature weather.temperature
  (if strTruthy weather.precipitation_type then
    ["Precipitation expected: " ++ weather.precipitation_type.getD ""]
  else [])
  ++ (if WIND_THRESHOLD_BREEZY < weather.wind_speed then
        if WIND_THRESHOLD_WINDY < weather.wind_speed then ["High winds expected"]
        else ["Breezy conditions"]
      else [])
  ++ (if (temp_category = "Warm" ∨ temp_category = "Hot")
         ∧ HUMIDITY_HIGH < weather.humidity then
        ["High humidity - choose breathable fabrics"]
      else [])

/-- From `clothing_logic.py`: `ClothingAdvisor.generate_recommendations`,
the full pipeline. -/
def generate_recommendations (weather : WeatherData) : ClothingRecommendation :=
  let temp_category := classify_temperature weather.temperature
  let items := enforce_item_count
    (dedupe_and_prioritize (candidateItems weather)) temp_category weather
  { weather := weather
    items := items
    summary := generate_summary temp_category weather
      (specialConsiderations weather)
    temperature_category := temp_category
    special_considerations := specialConsiderations weather }

/-! ## Helper notions and general lemmas -/

/-- The lowercased names of a list of items, the key on which the
source deduplicates. -/
def lowerNames (l : List ClothingItem) : List String :=
  l.map (fun i => strLower i.name)

theorem lowerNames_append (l₁ l₂ : List ClothingItem) :
    lowerNames (l₁ ++ l₂) = lowerNames l₁ ++ lowerNames l₂ :=
  List.map_append _ _ _

/-- The classifier can only return one of the five labels. -/
theorem classify_temperature_cases (t : ℚ) :
    classify_temperature t = "Winter" ∨ classify_temperature t = "Cool"
    ∨ classify_temperature t = "Moderate" ∨ classify_temperature t = "Warm"
    ∨ classify_temperature t = "Hot" := by
  unfold classify_temperature
  split_ifs <;> simp

/-- Unfolding `dedupeAux` when the head's lowercased name was already seen. -/
theorem dedupeAux_cons_mem {seen : List String} {i : ClothingItem}
    (rest : List ClothingItem) (h : strLower i.name ∈ seen) :
    dedupeAux seen (i :: rest) = dedupeAux seen rest := by
  simp [dedupeAux, h]

/-- Unfolding `dedupeAux` when the head's lowercased name is fresh. -/
theorem dedupeAux_cons_fresh {seen : List String} {i : ClothingItem}
    (rest : List ClothingItem) (h : strLower i.name ∉ seen) :
    dedupeAux seen (i :: rest) = i :: dedupeAux (strLower i.name :: seen) rest := by
  simp [dedupeAux, h]

/-- Deduplication only drops items: the output is a sublist of the input. -/
theorem dedupeAux_sublist (l : List ClothingItem) :
    ∀ seen, List.Sublist (dedupeAux seen l) l := by
  induction l with
  | nil => intro seen; simp [dedupeAux]
  | cons i rest ih =>
    intro seen
    by_cases h : strLower i.name ∈ seen
    · rw [dedupeAux_cons_mem rest h]
      exact (ih seen).cons i
    · rw [dedupeAux_cons_fresh rest h]
      exact (ih _).cons₂ i

/-- The deduplication output has pairwise-distinct lowercased names,
none of which was in the seen set. -/
theorem dedupeAux_nodup (l : List ClothingItem) :
    ∀ seen, (lowerNames (dedupeAux seen l)).Nodup
      ∧ ∀ i ∈ dedupeAux seen l, strLower i.name ∉ seen := by
  induction l with
  | nil => intro seen; simp [dedupeAux, lowerNames]
  | cons i rest ih =>
    intro seen
    by_cases h : strLower i.name ∈ seen
    · rw [dedupeAux_cons_mem rest h]
      exact ih seen
    · rw [dedupeAux_cons_fresh rest h]
      obtain ⟨hnd, hfresh⟩ := ih (strLower i.name :: seen)
      constructor
      · simp only [lowerNames, List.map_cons, List.nodup_cons]
        refine ⟨?_, hnd⟩
        intro hmem
        obtain ⟨j, hj, hje⟩ := List.mem_map.mp hmem
        exact (hfresh j hj) (by simp [hje])
      · intro j hj
        rcases List.mem_cons.mp hj with rfl | hj'
        · exact h
        · intro hs
          exact (hfresh j hj') (List.mem_cons_of_mem _ hs)

/-- `dedupeAux` only looks at the seen set through membership. -/
theorem dedupeAux_congr (l : List ClothingItem) :
    ∀ seen₁ seen₂, (∀ s, s ∈ seen₁ ↔ s ∈ seen₂) →
      dedupeAux seen₁ l = dedupeAux seen₂ l := by
  induction l with
  | nil => intro _ _ _; simp [dedupeAux]
  | cons i rest ih =>
    intro seen₁ seen₂ h
    by_cases hm : strLower i.name ∈ seen₁
    · rw [dedupeAux_cons_mem rest hm, dedupeAux_cons_mem rest ((h _).mp hm)]
      exact ih _ _ h
    · have hm₂ : strLower i.name ∉ seen₂ := fun hc => hm ((h _).mpr hc)
      rw [dedupeAux_cons_fresh rest hm, dedupeAux_cons_fresh rest hm₂]
      refine congrArg _ (ih _ _ ?_)
      intro s
      simp only [List.mem_cons]
      exact or_congr Iff.rfl (h s)

/-- Marking a name as seen is the same as filtering out later items
with that lowercased name: each first occurrence wins. -/
theorem dedupeAux_filter (l : List ClothingItem) :
    ∀ (s : String) seen, dedupeAux (s :: seen) l
      = dedupeAux seen (l.filter fun y => !(strLower y.name == s)) := by
  induction l with
  | nil => intro s seen; simp [dedupeAux]
  | cons i rest ih =>
    intro s seen
    by_cases he : strLower i.name = s
    · rw [dedupeAux_cons_mem rest (by simp [he]), List.filter_cons,
        if_neg (by simp [he])]
      exact ih s seen
    · rw [List.filter_cons, if_pos (by simp [he])]
      by_cases hm : strLower i.name ∈ seen
      · rw [dedupeAux_cons_mem rest (List.mem_cons_of_mem _ hm),
          dedupeAux_cons_mem _ hm]
        exact ih s seen
      · rw [dedupeAux_cons_fresh rest (by simp [he, hm]),
          dedupeAux_cons_fresh _ hm]
        refine congrArg _ ?_
        rw [dedupeAux_congr rest (strLower i.name :: s :: seen)
              (s :: strLower i.name :: seen) (by intro x; simp; tauto),
          ih s (strLower i.name :: seen)]

/-- The seen set accumulated by `dedupeAux` while it scans a list. -/
def seenAfter (seen : List String) : List ClothingItem → List String
  | [] => seen
  | i :: rest =>
    if seen.contains (strLower i.name) then seenAfter seen rest
    else seenAfter (strLower i.name :: seen) rest

theorem seenAfter_cons_mem {seen : List String} {i : ClothingItem}
    (rest : List ClothingItem) (h : strLower i.name ∈ seen) :
    seenAfter seen (i :: rest) = seenAfter seen rest := by
  simp [seenAfter, h]

theorem seenAfter_cons_fresh {seen : List String} {i : ClothingItem}
    (rest : List ClothingItem) (h : strLower i.name ∉ seen) :
    seenAfter seen (i :: rest) = seenAfter (strLower i.name :: seen) rest := by
  simp [seenAfter, h]

/-- Deduplicating a concatenation: the second part is deduplicated
against the names seen while scanning the first. -/
theorem dedupeAux_append (l₁ : List ClothingItem) :
    ∀ (seen : List String) (l₂ : List ClothingItem),
      dedupeAux seen (l₁ ++ l₂)
        = dedupeAux seen l₁ ++ dedupeAux (seenAfter seen l₁) l₂ := by
  induction l₁ with
  | nil => intro seen l₂; simp [dedupeAux, seenAfter]
  | cons i rest ih =>
    intro seen l₂
    by_cases h : strLower i.name ∈ seen
    · rw [List.cons_append, dedupeAux_cons_mem _ h, dedupeAux_cons_mem rest h,
        seenAfter_cons_mem rest h]
      exact ih seen l₂
    · rw [List.cons_append, dedupeAux_cons_fresh _ h, dedupeAux_cons_fresh rest h,
        seenAfter_cons_fresh rest h, ih _ l₂, List.cons_append]

/-- A list whose lowercased names are distinct and unseen passes through
deduplication unchanged, and the seen set grows by exactly its names. -/
theorem dedupeAux_eq_self (l : List ClothingItem) :
    ∀ (seen : List String), (lowerNames l).Nodup →
      (∀ s ∈ lowerNames l, s ∉ seen) →
      dedupeAux seen l = l
        ∧ ∀ s, s ∈ seenAfter seen l ↔ s ∈ lowerNames l ∨ s ∈ seen := by
  induction l with
  | nil => intro seen _ _; simp [dedupeAux, seenAfter, lowerNames]
  | cons i rest ih =>
    intro seen hnd hfresh
    have hin : strLower i.name ∉ seen := by
      refine hfresh _ ?_
      simp [lowerNames]
    have hx : (∀ x ∈ rest, ¬ strLower x.name = strLower i.name)
        ∧ (List.map (fun i => strLower i.name) rest).Nodup := by
      simpa [lowerNames] using hnd
    have hnd' : (lowerNames rest).Nodup := hx.2
    have hhead : strLower i.name ∉ lowerNames rest := by
      simp only [lowerNames, List.mem_map]
      rintro ⟨j, hj, hje⟩
      exact hx.1 j hj hje
    have hfresh' : ∀ s ∈ lowerNames rest, s ∉ strLower i.name :: seen := by
      intro s hs
      simp only [List.mem_cons]
      rintro (rfl | hseen)
      · exact hhead hs
      · exact hfresh s (by simp [lowerNames] at hs ⊢; exact Or.inr hs) hseen
    obtain ⟨heq, hseen⟩ := ih (strLower i.name :: seen) hnd' hfresh'
    refine ⟨?_, ?_⟩
    · rw [dedupeAux_cons_fresh rest hin, heq]
    · intro s
      rw [seenAfter_cons_fresh rest hin, hseen s]
      simp only [lowerNames, List.map_cons, List.mem_cons]
      tauto

/-- `insertByPriority` inserts: the result is a permutation of consing. -/
theorem insertByPriority_perm (x : ClothingItem) (l : List ClothingItem) :
    List.Perm (insertByPriority x l) (x :: l) := by
  induction l with
  | nil => simp [insertByPriority]
  | cons y ys ih =>
    unfold insertByPriority
    split
    · exact ((ih.cons y).trans (List.Perm.swap x y ys))
    · exact List.Perm.refl _

/-- The stable sort is a permutation of its input. -/
theorem sortByPriority_perm (l : List ClothingItem) :
    List.Perm (sortByPriority l) l := by
  induction l with
  | nil => simp [sortByPriority]
  | cons x xs ih =>
    exact (insertByPriority_perm x (sortByPriority xs)).trans (ih.cons x)

theorem mem_insertByPriority {z x : ClothingItem} {l : List ClothingItem} :
    z ∈ insertByPriority x l ↔ z = x ∨ z ∈ l := by
  rw [(insertByPriority_perm x l).mem_iff]
  simp

/-- Inserting into a priority-sorted list keeps it sorted. -/
theorem insertByPriority_pairwise (x : ClothingItem) (l : List ClothingItem)
    (h : l.Pairwise (fun a b => a.priority ≤ b.priority)) :
    (insertByPriority x l).Pairwise (fun a b => a.priority ≤ b.priority) := by
  induction l with
  | nil => simp [insertByPriority]
  | cons y ys ih =>
    rw [List.pairwise_cons] at h
    unfold insertByPriority
    split
    · rename_i hlt
      rw [List.pairwise_cons]
      refine ⟨?_, ih h.2⟩
      intro z hz
      rcases mem_insertByPriority.mp hz with rfl | hz'
      · omega
      · exact h.1 z hz'
    · rename_i hge
      rw [List.pairwise_cons]
      refine ⟨?_, List.pairwise_cons.mpr h⟩
      intro z hz
      rcases List.mem_cons.mp hz with rfl | hz'
      · omega
      · have := h.1 z hz'
        omega

/-- The sort output is non-decreasing in priority. -/
theorem sortByPriority_pairwise (l : List ClothingItem) :
    (sortByPriority l).Pairwise (fun a b => a.priority ≤ b.priority) := by
  induction l with
  | nil => simp [sortByPriority]
  | cons x xs ih => exact insertByPriority_pairwise x _ ih

/-- Filtering one priority class through an insertion: items of other
priorities are untouched, an equal-priority item lands in front of none
of the earlier equal-priority items. -/
theorem insertByPriority_filter (x : ClothingItem) (l : List ClothingItem)
    (p : ℤ) :
    (insertByPriority x l).filter (fun i => i.priority == p)
      = if x.priority == p then
          x :: l.filter (fun i => i.priority == p)
        else l.filter (fun i => i.priority == p) := by
  induction l with
  | nil => simp [insertByPriority, List.filter_cons]
  | cons y ys ih =>
    unfold insertByPriority
    split
    · rename_i hlt
      by_cases hyp : (y.priority == p) = true
      · have hxp : ¬(x.priority == p) = true := by
          simp only [beq_iff_eq] at hyp ⊢
          omega
        simp [List.filter_cons, hyp, hxp, ih]
      · simp [List.filter_cons, hyp, ih]
    · by_cases hxp : (x.priority == p) = true
      · simp [List.filter_cons, hxp]
      · simp [List.filter_cons, hxp]

/-- Stability of the sort: within each priority class the order of the
input is preserved exactly. -/
theorem sortByPriority_stable (l : List ClothingItem) (p : ℤ) :
    (sortByPriority l).filter (fun i => i.priority == p)
      = l.filter (fun i => i.priority == p) := by
  induction l with
  | nil => simp [sortByPriority]
  | cons x xs ih =>
    rw [sortByPriority, insertByPriority_filter, List.filter_cons]
    by_cases hxp : (x.priority == p) = true
    · rw [if_pos hxp, if_pos hxp, ih]
    · rw [if_neg hxp, if_neg hxp, ih]

/-- Every filler item carries priority 3. -/
theorem fillerItem_priority (items : List ClothingItem) (temp_category : String) :
    (fillerItem items temp_category).priority = 3 := by
  unfold fillerItem
  split_ifs <;> rfl

/-- The padding loop exits immediately on a list of at least 3 items. -/
theorem padItems_of_ge {l : List ClothingItem} (cat : String)
    (h : ¬ l.length < SC_002_MIN_RECOMMENDATIONS) : padItems l cat = l := by
  rw [padItems]
  simp [SC_002_MIN_RECOMMENDATIONS] at h ⊢
  omega

/-- One iteration of the padding loop appends one filler item. -/
theorem padItems_step {l : List ClothingItem} (cat : String)
    (h : l.length < SC_002_MIN_RECOMMENDATIONS) :
    padItems l cat = padItems (l ++ [fillerItem l cat]) cat := by
  rw [padItems]
  simp [SC_002_MIN_RECOMMENDATIONS] at h ⊢
  omega

theorem padItems_spec_aux :
    ∀ (k : ℕ) (l : List ClothingItem) (cat : String),
      SC_002_MIN_RECOMMENDATIONS - l.length ≤ k →
      ∃ extra, padItems l cat = l ++ extra
        ∧ (padItems l cat).length = max l.length SC_002_MIN_RECOMMENDATIONS
        ∧ ∀ i ∈ extra, i.priority = 3 := by
  intro k
  induction k with
  | zero =>
    intro l cat hk
    have h3 : ¬ l.length < SC_002_MIN_RECOMMENDATIONS := by omega
    rw [padItems_of_ge cat h3]
    exact ⟨[], by simp, by simp; omega, by simp⟩
  | succ k ih =>
    intro l cat hk
    by_cases h : l.length < SC_002_MIN_RECOMMENDATIONS
    · rw [padItems_step cat h]
      obtain ⟨extra, he, hlen, hpri⟩ :=
        ih (l ++ [fillerItem l cat]) cat (by simp; omega)
      refine ⟨fillerItem l cat :: extra, ?_, ?_, ?_⟩
      · rw [he]
        simp
      · rw [hlen]
        simp
        omega
      · intro i hi
        rcases List.mem_cons.mp hi with rfl | hi'
        · exact fillerItem_priority _ _
        · exact hpri i hi'
    · rw [padItems_of_ge cat h]
      exact ⟨[], by simp, by simp; omega, by simp⟩

/-- Padding appends a (possibly empty) block of priority-3 filler items
and stops exactly at the minimum count. -/
theorem padItems_spec (l : List ClothingItem) (cat : String) :
    ∃ extra, padItems l cat = l ++ extra
      ∧ (padItems l cat).length = max l.length SC_002_MIN_RECOMMENDATIONS
      ∧ ∀ i ∈ extra, i.priority = 3 :=
  padItems_spec_aux (SC_002_MIN_RECOMMENDATIONS - l.length) l cat le_rfl

/-- Count enforcement keeps the first `min 5` items in order and appends
only priority-3 fillers; the output length is clamped into `[3, 5]`. -/
theorem enforce_item_count_spec (l : List ClothingItem) (cat : String)
    (w : WeatherData) :
    ∃ extra, enforce_item_count l cat w = l.take SC_002_MAX_RECOMMENDATIONS ++ extra
      ∧ (∀ i ∈ extra, i.priority = 3)
      ∧ (enforce_item_count l cat w).length
          = max (min l.length SC_002_MAX_RECOMMENDATIONS) SC_002_MIN_RECOMMENDATIONS := by
  unfold enforce_item_count
  by_cases h : SC_002_MAX_RECOMMENDATIONS < l.length
  · simp only [if_pos h]
    have h5 : ¬ (l.take SC_002_MAX_RECOMMENDATIONS).length < SC_002_MIN_RECOMMENDATIONS := by
      simp [SC_002_MAX_RECOMMENDATIONS, SC_002_MIN_RECOMMENDATIONS] at h ⊢
      omega
    rw [padItems_of_ge cat h5]
    refine ⟨[], by simp, by simp, ?_⟩
    simp [SC_002_MAX_RECOMMENDATIONS, SC_002_MIN_RECOMMENDATIONS] at h ⊢
    omega
  · simp only [if_neg h]
    obtain ⟨extra, he, hlen, hpri⟩ := padItems_spec l cat
    refine ⟨extra, ?_, hpri, ?_⟩
    · rw [he, List.take_of_length_le (by omega)]
    · rw [hlen]
      simp [SC_002_MAX_RECOMMENDATIONS, SC_002_MIN_RECOMMENDATIONS] at h ⊢
      omega

/-! ## Per-branch computations on the candidate list -/

/-- The lowercased names of the five temperature bundles. -/
def tempNames (cat : String) : List String :=
  if cat = "Winter" then
    ["heavy winter coat", "warm layers (thermal underwear or fleece)",
     "winter hat and gloves", "insulated boots"]
  else if cat = "Cool" then
    ["medium-weight jacket", "long-sleeve shirt or sweater", "light scarf (optional)"]
  else if cat = "Moderate" then
    ["light jacket or cardigan", "long-sleeve shirt or light layers"]
  else if cat = "Warm" then
    ["short-sleeve shirt or light top", "light pants or shorts", "sunglasses"]
  else
    ["lightweight, breathable clothing", "shorts or light skirt",
     "wide-brim hat or cap", "sunglasses"]

theorem lowerNames_temp (cat : String) (w : WeatherData) :
    lowerNames (get_temperature_items cat w) = tempNames cat := by
  unfold get_temperature_items tempNames
  split_ifs <;> (simp only [lowerNames, List.map_cons, List.map_nil]; decide)

theorem tempNames_nodup (cat : String) : (tempNames cat).Nodup := by
  unfold tempNames
  split_ifs <;> decide

theorem tempNames_length_ge (cat : String) : 2 ≤ (tempNames cat).length := by
  unfold tempNames
  split_ifs <;> decide

theorem tempNames_length_ge_three (cat : String) (h : cat ≠ "Moderate") :
    3 ≤ (tempNames cat).length := by
  unfold tempNames
  split_ifs <;> simp_all

theorem temp_items_length (cat : String) (w : WeatherData) :
    (get_temperature_items cat w).length = (tempNames cat).length := by
  rw [← lowerNames_temp cat w]
  simp [lowerNames]

/-- The candidate list is the temperature bundle followed by the
precipitation and wind contributions. -/
theorem candidateItems_eq (w : WeatherData) :
    candidateItems w
      = get_temperature_items (classify_temperature w.temperature) w
        ++ ((if strTruthy w.precipitation_type then
              get_precipitation_items (w.precipitation_type.getD "")
                (classify_temperature w.temperature)
            else [])
          ++ (if WIND_THRESHOLD_BREEZY < w.wind_speed then
              get_wind_items w.wind_speed (classify_temperature w.temperature)
            else [])) := by
  unfold candidateItems
  rw [List.append_assoc]

/-- Deduplicating the candidate list keeps the whole temperature bundle;
what follows is the rest deduplicated against the bundle's names. -/
theorem dedupe_candidate (w : WeatherData) :
    dedupeAux [] (candidateItems w)
      = get_temperature_items (classify_temperature w.temperature) w
        ++ dedupeAux
            (seenAfter [] (get_temperature_items (classify_temperature w.temperature) w))
            ((if strTruthy w.precipitation_type then
                get_precipitation_items (w.precipitation_type.getD "")
                  (classify_temperature w.temperature)
              else [])
              ++ (if WIND_THRESHOLD_BREEZY < w.wind_speed then
                  get_wind_items w.wind_speed (classify_temperature w.temperature)
                else []))
      ∧ ∀ s, s ∈ seenAfter []
            (get_temperature_items (classify_temperature w.temperature) w)
          ↔ s ∈ tempNames (classify_temperature w.temperature) := by
  have hnd : (lowerNames (get_temperature_items
      (classify_temperature w.temperature) w)).Nodup := by
    rw [lowerNames_temp]
    exact tempNames_nodup _
  obtain ⟨heq, hseen⟩ := dedupeAux_eq_self
    (get_temperature_items (classify_temperature w.temperature) w) [] hnd
    (by simp)
  constructor
  · rw [candidateItems_eq, dedupeAux_append, heq]
  · intro s
    rw [hseen s, lowerNames_temp]
    simp

/-- Every item produced by a temperature bundle has priority in `[1, 3]`. -/
theorem temp_items_priority (cat : String) (w : WeatherData) :
    ∀ i ∈ get_temperature_items cat w, 1 ≤ i.priority ∧ i.priority ≤ 3 := by
  unfold get_temperature_items
  split_ifs <;> intro i hi <;> simp at hi <;>
    rcases hi with rfl | rfl | rfl | rfl <;> simp

/-- Every item produced by the precipitation rules has priority in `[1, 3]`. -/
theorem precip_items_priority (p cat : String) :
    ∀ i ∈ get_precipitation_items p cat, 1 ≤ i.priority ∧ i.priority ≤ 3 := by
  unfold get_precipitation_items
  split_ifs <;> intro i hi <;> simp at hi <;>
    rcases hi with rfl | rfl | rfl <;> simp

/-- Every item produced by the wind rules has priority in `[1, 3]`. -/
theorem wind_items_priority (ws : ℚ) (cat : String) :
    ∀ i ∈ get_wind_items ws cat, 1 ≤ i.priority ∧ i.priority ≤ 3 := by
  unfold get_wind_items
  split_ifs <;> intro i hi <;> simp at hi <;> simp [hi]

/-- Every candidate item has priority in `[1, 3]`. -/
theorem candidate_priority (w : WeatherData) :
    ∀ i ∈ candidateItems w, 1 ≤ i.priority ∧ i.priority ≤ 3 := by
  intro i hi
  rw [candidateItems_eq] at hi
  rcases List.mem_append.mp hi with h | h
  · exact temp_items_priority _ _ i h
  · rcases List.mem_append.mp h with h' | h'
    · split at h'
      · exact precip_items_priority _ _ i h'
      · simp at h'
    · split at h'
      · exact wind_items_priority _ _ i h'
      · simp at h'

/-- If deduplication returns the empty list, every input item's
lowercased name was already seen. -/
theorem dedupeAux_eq_nil (l : List ClothingItem) :
    ∀ seen, dedupeAux seen l = [] → ∀ i ∈ l, strLower i.name ∈ seen := by
  induction l with
  | nil => intro seen _ i hi; simp at hi
  | cons j rest ih =>
    intro seen hnil i hi
    by_cases hj : strLower j.name ∈ seen
    · rw [dedupeAux_cons_mem rest hj] at hnil
      rcases List.mem_cons.mp hi with rfl | hi'
      · exact hj
      · exact ih seen hnil i hi'
    · rw [dedupeAux_cons_fresh rest hj] at hnil
      simp at hnil

/-- The Moderate bundle sorted: the priority-1 layers item moves in
front of the priority-2 outerwear item. -/
theorem sort_moderate (w : WeatherData) :
    sortByPriority (get_temperature_items "Moderate" w)
      = [⟨"Long-sleeve shirt or light layers", .layers,
          "Versatile for changing conditions", 1⟩,
         ⟨"Light jacket or cardigan", .outerwear,
          "Perfect for " ++ formatF0 w.temperature ++ "°F mild temperatures", 2⟩] := by
  norm_num [get_temperature_items, sortByPriority, insertByPriority]

/-- A deduplicated-and-sorted candidate list can only be shorter than 3
items when the category is Moderate and neither precipitation nor wind
contributed anything; in that case it is exactly the sorted Moderate
bundle. -/
theorem dedupe_prioritize_short (w : WeatherData)
    (h : (dedupe_and_prioritize (candidateItems w)).length < 3) :
    classify_temperature w.temperature = "Moderate"
    ∧ (if strTruthy w.precipitation_type then
        get_precipitation_items (w.precipitation_type.getD "") "Moderate"
      else []) = []
    ∧ (if WIND_THRESHOLD_BREEZY < w.wind_speed then
        get_wind_items w.wind_speed "Moderate"
      else []) = []
    ∧ dedupe_and_prioritize (candidateItems w)
        = [⟨"Long-sleeve shirt or light layers", .layers,
            "Versatile for changing conditions", 1⟩,
           ⟨"Light jacket or cardigan", .outerwear,
            "Perfect for " ++ formatF0 w.temperature ++ "°F mild temperatures", 2⟩] := by
  obtain ⟨hdec, hseen⟩ := dedupe_candidate w
  have hlen : (dedupe_and_prioritize (candidateItems w)).length
      = (dedupeAux [] (candidateItems w)).length :=
    (sortByPriority_perm _).length_eq
  have hcat : classify_temperature w.temperature = "Moderate" := by
    by_contra hne
    have h3 := tempNames_length_ge_three _ hne
    have h4 := temp_items_length (classify_temperature w.temperature) w
    rw [hlen, hdec, List.length_append] at h
    omega
  rw [hcat] at hdec hseen
  -- the tail of the deduplicated candidate must be empty
  have hrest : dedupeAux
      (seenAfter [] (get_temperature_items "Moderate" w))
      ((if strTruthy w.precipitation_type then
          get_precipitation_items (w.precipitation_type.getD "") "Moderate"
        else [])
        ++ (if WIND_THRESHOLD_BREEZY < w.wind_speed then
            get_wind_items w.wind_speed "Moderate"
          else [])) = [] := by
    rw [hlen, hdec, List.length_append,
      temp_items_length "Moderate" w] at h
    have h2 : (tempNames "Moderate").length = 2 := by decide
    rw [← List.length_eq_zero]
    omega
  have hall := dedupeAux_eq_nil _ _ hrest
  have hP : (if strTruthy w.precipitation_type then
      get_precipitation_items (w.precipitation_type.getD "") "Moderate"
    else []) = [] := by
    by_cases ht : strTruthy w.precipitation_type
    · rw [if_pos ht]
      by_cases hr : w.precipitation_type.getD "" = PRECIP_TYPE_RAIN
      · exfalso
        have hm : (⟨"Waterproof jacket or rain coat", .outerwear,
            "Stay dry in the rain", 1⟩ : ClothingItem)
            ∈ (if strTruthy w.precipitation_type then
                get_precipitation_items (w.precipitation_type.getD "") "Moderate"
              else [])
              ++ (if WIND_THRESHOLD_BREEZY < w.wind_speed then
                  get_wind_items w.wind_speed "Moderate"
                else []) := by
          refine List.mem_append_left _ ?_
          rw [if_pos ht]
          unfold get_precipitation_items
          rw [if_pos hr]
          simp
        have := (hseen _).mp (hall _ hm)
        revert this
        decide
      · by_cases hs : w.precipitation_type.getD "" = PRECIP_TYPE_SNOW
        · exfalso
          have hm : (⟨"Waterproof winter boots", .footwear,
              "Essential for snow and slush", 1⟩ : ClothingItem)
              ∈ (if strTruthy w.precipitation_type then
                  get_precipitation_items (w.precipitation_type.getD "") "Moderate"
                else [])
                ++ (if WIND_THRESHOLD_BREEZY < w.wind_speed then
                    get_wind_items w.wind_speed "Moderate"
                  else []) := by
            refine List.mem_append_left _ ?_
            rw [if_pos ht]
            unfold get_precipitation_items
            rw [if_neg hr, if_pos hs]
            simp
          have := (hseen _).mp (hall _ hm)
          revert this
          decide
        · unfold get_precipitation_items
          rw [if_neg hr, if_neg hs]
    · rw [if_neg ht]
  have hW : (if WIND_THRESHOLD_BREEZY < w.wind_speed then
      get_wind_items w.wind_speed "Moderate"
    else []) = [] := by
    by_cases hb : WIND_THRESHOLD_BREEZY < w.wind_speed
    · exfalso
      by_cases hw : WIND_THRESHOLD_WINDY < w.wind_speed
      · have hm : (⟨"Windbreaker", .outerwear,
            "Protection from " ++ formatF0 w.wind_speed ++ " mph winds", 1⟩
            : ClothingItem)
            ∈ (if strTruthy w.precipitation_type then
                get_precipitation_items (w.precipitation_type.getD "") "Moderate"
              else [])
              ++ (if WIND_THRESHOLD_BREEZY < w.wind_speed then
                  get_wind_items w.wind_speed "Moderate"
                else []) := by
          refine List.mem_append_right _ ?_
          rw [if_pos hb]
          unfold get_wind_items
          rw [if_pos hw, if_neg (by simp)]
          simp
        have h2 : ("windbreaker" : String) ∈ tempNames "Moderate" :=
          (hseen _).mp (hall _ hm)
        exact absurd h2 (by decide)
      · have hm : (⟨"Light windbreaker or jacket", .outerwear,
            "Light wind protection for breezy conditions", 2⟩ : ClothingItem)
            ∈ (if strTruthy w.precipitation_type then
                get_precipitation_items (w.precipitation_type.getD "") "Moderate"
              else [])
              ++ (if WIND_THRESHOLD_BREEZY < w.wind_speed then
                  get_wind_items w.wind_speed "Moderate"
                else []) := by
          refine List.mem_append_right _ ?_
          rw [if_pos hb]
          unfold get_wind_items
          rw [if_neg hw, if_pos (by simp)]
          simp
        have := (hseen _).mp (hall _ hm)
        revert this
        decide
    · rw [if_neg hb]
  refine ⟨hcat, hP, hW, ?_⟩
  show sortByPriority (dedupeAux [] (candidateItems w)) = _
  rw [hdec, hP, hW]
  simp only [List.append_nil, dedupeAux]
  exact sort_moderate w

/-- The items of a recommendation are the candidate list pushed through
dedup/priority and count enforcement. -/
theorem generate_items_eq (w : WeatherData) :
    (generate_recommendations w).items
      = enforce_item_count (dedupe_and_prioritize (candidateItems w))
          (classify_temperature w.temperature) w := rfl

/-- The considerations of a recommendation. -/
theorem generate_considerations_eq (w : WeatherData) :
    (generate_recommendations w).special_considerations
      = specialConsiderations w := rfl

/-- Dedup/prioritize always yields pairwise-distinct lowercased names. -/
theorem dedupe_prioritize_nodup (l : List ClothingItem) :
    (lowerNames (dedupe_and_prioritize l)).Nodup := by
  have hperm : List.Perm (lowerNames (dedupe_and_prioritize l))
      (lowerNames (dedupeAux [] l)) :=
    (sortByPriority_perm (dedupeAux [] l)).map _
  exact hperm.nodup_iff.mpr (dedupeAux_nodup l []).1

/-- Count enforcement of the bare sorted Moderate bundle: one padding
iteration appends the generic shoes and stops at three items. -/
theorem enforce_moderate_pair (w : WeatherData) :
    enforce_item_count
      [⟨"Long-sleeve shirt or light layers", .layers,
        "Versatile for changing conditions", 1⟩,
       ⟨"Light jacket or cardigan", .outerwear,
        "Perfect for " ++ formatF0 w.temperature ++ "°F mild temperatures", 2⟩]
      "Moderate" w
    = [⟨"Long-sleeve shirt or light layers", .layers,
        "Versatile for changing conditions", 1⟩,
       ⟨"Light jacket or cardigan", .outerwear,
        "Perfect for " ++ formatF0 w.temperature ++ "°F mild temperatures", 2⟩,
       ⟨"Comfortable shoes", .footwear,
        "Appropriate footwear for the weather", 3⟩] := by
  unfold enforce_item_count
  rw [if_neg (by norm_num [SC_002_MAX_RECOMMENDATIONS])]
  rw [padItems_step _ (by norm_num [SC_002_MIN_RECOMMENDATIONS])]
  have hf : fillerItem
      [⟨"Long-sleeve shirt or light layers", .layers,
        "Versatile for changing conditions", 1⟩,
       ⟨"Light jacket or cardigan", .outerwear,
        "Perfect for " ++ formatF0 w.temperature ++ "°F mild temperatures", 2⟩]
      "Moderate"
      = ⟨"Comfortable shoes", .footwear,
         "Appropriate footwear for the weather", 3⟩ := by
    simp [fillerItem]
  rw [hf]
  rw [padItems_of_ge _ (by norm_num [SC_002_MIN_RECOMMENDATIONS])]
  rfl

/-- The final item list never contains two items with the same
lowercased name (for every input, including the padded Moderate case). -/
theorem generate_items_names_nodup (w : WeatherData) :
    (lowerNames (generate_recommendations w).items).Nodup := by
  rw [generate_items_eq]
  have hnd := dedupe_prioritize_nodup (candidateItems w)
  by_cases h3 : (dedupe_and_prioritize (candidateItems w)).length
      < SC_002_MIN_RECOMMENDATIONS
  · obtain ⟨hcat, hP, hW, heq⟩ := dedupe_prioritize_short w
      (by simpa [SC_002_MIN_RECOMMENDATIONS] using h3)
    rw [heq, hcat, enforce_moderate_pair w]
    simp only [lowerNames, List.map_cons, List.map_nil]
    decide
  · unfold enforce_item_count
    by_cases h5 : SC_002_MAX_RECOMMENDATIONS
        < (dedupe_and_prioritize (candidateItems w)).length
    · rw [if_pos h5]
      rw [padItems_of_ge _ (by
        simp [SC_002_MAX_RECOMMENDATIONS, SC_002_MIN_RECOMMENDATIONS] at h5 ⊢
        omega)]
      have hsub : List.Sublist
          (lowerNames ((dedupe_and_prioritize (candidateItems w)).take
            SC_002_MAX_RECOMMENDATIONS))
          (lowerNames (dedupe_and_prioritize (candidateItems w))) := by
        unfold lowerNames
        exact (List.take_sublist _ _).map _
      exact hnd.sublist hsub
    · rw [if_neg h5, padItems_of_ge _ h3]
      exact hnd

/-- The final item list is non-decreasing in priority. -/
theorem generate_items_sorted (w : WeatherData) :
    ((generate_recommendations w).items).Pairwise
      (fun a b => a.priority ≤ b.priority) := by
  rw [generate_items_eq]
  have hsorted := sortByPriority_pairwise (dedupeAux [] (candidateItems w))
  have hsorted' : (dedupe_and_prioritize (candidateItems w)).Pairwise
      (fun a b => a.priority ≤ b.priority) := hsorted
  have hmem : ∀ i ∈ dedupe_and_prioritize (candidateItems w), i.priority ≤ 3 := by
    intro i hi
    have hi' : i ∈ dedupeAux [] (candidateItems w) :=
      (sortByPriority_perm _).mem_iff.mp hi
    have hi'' : i ∈ candidateItems w :=
      (dedupeAux_sublist (candidateItems w) []).mem hi'
    exact (candidate_priority w i hi'').2
  obtain ⟨extra, he, hpri, hlen⟩ := enforce_item_count_spec
    (dedupe_and_prioritize (candidateItems w))
    (classify_temperature w.temperature) w
  rw [he]
  rw [List.pairwise_append]
  refine ⟨?_, ?_, ?_⟩
  · exact hsorted'.sublist (List.take_sublist _ _)
  · refine List.pairwise_of_forall_mem_list ?_
    intro a ha b hb
    rw [hpri a ha, hpri b hb]
  · intro a ha b hb
    have ha' : a ∈ dedupe_and_prioritize (candidateItems w) :=
      (List.take_sublist _ _).mem ha
    rw [hpri b hb]
    exact hmem a ha'

/-! ## Claim theorems -/

/-- C1: for every WeatherData input, `generate_recommendations` returns
a recommendation whose item list has length at least 3 and at most 5. -/
theorem C1_item_count_invariant (w : WeatherData) :
    3 ≤ (generate_recommendations w).items.length
    ∧ (generate_recommendations w).items.length ≤ 5 := by
  rw [generate_items_eq]
  obtain ⟨extra, he, hpri, hlen⟩ := enforce_item_count_spec
    (dedupe_and_prioritize (candidateItems w))
    (classify_temperature w.temperature) w
  rw [hlen]
  simp [SC_002_MAX_RECOMMENDATIONS, SC_002_MIN_RECOMMENDATIONS]

/-- C2: the temperature classifier is total with exactly the five
half-open bands, strict `<` comparisons, and each boundary value in the
upper band. -/
theorem C2_classifier_bands (t : ℚ) :
    (classify_temperature t = "Winter" ↔ t < 32)
    ∧ (classify_temperature t = "Cool" ↔ 32 ≤ t ∧ t < 50)
    ∧ (classify_temperature t = "Moderate" ↔ 50 ≤ t ∧ t < 70)
    ∧ (classify_temperature t = "Warm" ↔ 70 ≤ t ∧ t < 85)
    ∧ (classify_temperature t = "Hot" ↔ 85 ≤ t)
    ∧ classify_temperature 32 = "Cool"
    ∧ classify_temperature 50 = "Moderate"
    ∧ classify_temperature 70 = "Warm"
    ∧ classify_temperature 85 = "Hot" := by
  refine ⟨?_, ?_, ?_, ?_, ?_, by norm_num [classify_temperature],
    by norm_num [classify_temperature], by norm_num [classify_temperature],
    by norm_num [classify_temperature]⟩ <;>
    (unfold classify_temperature; split_ifs <;> simp <;>
      first
        | linarith
        | (constructor <;> linarith)
        | (intro h'; linarith))

/-- C3: the final item list never holds two items with case-insensitively
equal names, and deduplication keeps each first occurrence while dropping
every later item whose lowercased name matches an earlier one. -/
theorem C3_dedup_invariant (w : WeatherData) (x : ClothingItem)
    (xs : List ClothingItem) :
    (lowerNames (generate_recommendations w).items).Nodup
    ∧ dedupeAux [] (x :: xs)
        = x :: dedupeAux []
            (xs.filter fun y => !(strLower y.name == strLower x.name)) := by
  refine ⟨generate_items_names_nodup w, ?_⟩
  rw [dedupeAux_cons_fresh xs (by simp)]
  exact congrArg _ (dedupeAux_filter xs (strLower x.name) [])

/-- C4: the final item list is non-decreasing in priority, the
priority sort is stable (each priority class keeps its insertion
order), and count enforcement keeps the sorted prefix intact before
any appended filler. -/
theorem C4_priority_ordering (w : WeatherData) (l : List ClothingItem)
    (p : ℤ) (cat : String) (v : WeatherData) :
    ((generate_recommendations w).items).Pairwise
      (fun a b => a.priority ≤ b.priority)
    ∧ (sortByPriority l).filter (fun i => i.priority == p)
        = l.filter (fun i => i.priority == p)
    ∧ ∃ extra, enforce_item_count l cat v
        = l.take SC_002_MAX_RECOMMENDATIONS ++ extra := by
  refine ⟨generate_items_sorted w, sortByPriority_stable l p, ?_⟩
  obtain ⟨extra, he, _, _⟩ := enforce_item_count_spec l cat v
  exact ⟨extra, he⟩

/-- C9: the recommendation pipeline is total; in particular the padding
loop of count enforcement terminates on every input, growing the list by
exactly one filler per iteration up to the minimum of three, and every
generated recommendation has at least three items. -/
theorem C9_totality (l : List ClothingItem) (cat : String) (w : WeatherData) :
    (padItems l cat).length = max l.length SC_002_MIN_RECOMMENDATIONS
    ∧ (enforce_item_count l cat w).length
        = max (min l.length SC_002_MAX_RECOMMENDATIONS) SC_002_MIN_RECOMMENDATIONS
    ∧ 3 ≤ (generate_recommendations w).items.length := by
  obtain ⟨extra, he, hlen, hpri⟩ := padItems_spec l cat
  obtain ⟨extra2, he2, hpri2, hlen2⟩ := enforce_item_count_spec l cat w
  exact ⟨hlen, hlen2, (C1_item_count_invariant w).1⟩

/-- A concrete freezing-weather input used by witnesses and
counterexamples. -/
def wWinter10 : WeatherData :=
  { zip_code := "10001", location := "NYC", temperature := 10, feels_like := 5,
    humidity := 50, wind_speed := 5, description := "clear sky" }

/-- C5 counterexample: at 10°F the selected Winter bundle contains the
item "Warm layers (thermal underwear or fleece)" whose reason
"Provides insulation under your coat" does not include the numeric
temperature, refuting "each item ... carries ... a reason string that
includes the numeric temperature". -/
theorem C5_counterexample :
    ¬ ∀ i ∈ get_temperature_items
        (classify_temperature wWinter10.temperature) wWinter10,
      ∃ pre post, i.reason = pre ++ formatF0 wWinter10.temperature ++ post := by
  intro hall
  have hmem : (⟨"Warm layers (thermal underwear or fleece)", .layers,
      "Provides insulation under your coat", 1⟩ : ClothingItem)
      ∈ get_temperature_items
        (classify_temperature wWinter10.temperature) wWinter10 := by
    decide
  obtain ⟨pre, post, heq⟩ := hall _ hmem
  have hdata := congrArg String.data heq
  simp only [String.data_append] at hdata
  have h1 : '1' ∈ pre.data ++ (formatF0 wWinter10.temperature).data ++ post.data := by
    have hf : '1' ∈ (formatF0 wWinter10.temperature).data := by decide
    simp only [List.mem_append]
    exact Or.inl (Or.inr hf)
  rw [← hdata] at h1
  exact absurd h1 (by decide)

/-- C5 (amended): exactly one bundle is selected by the temperature
category with counts Winter→4, Cool→3, Moderate→2, Warm→3, Hot→4; every
bundle item carries a priority in [1, 3]; and the bundle's first item
(not each item) carries a reason string that includes the numeric
temperature. -/
theorem C5_temperature_bundles (w : WeatherData) :
    (classify_temperature w.temperature = "Winter"
      ∨ classify_temperature w.temperature = "Cool"
      ∨ classify_temperature w.temperature = "Moderate"
      ∨ classify_temperature w.temperature = "Warm"
      ∨ classify_temperature w.temperature = "Hot")
    ∧ (get_temperature_items (classify_temperature w.temperature) w).length
        = (if classify_temperature w.temperature = "Winter" then 4
           else if classify_temperature w.temperature = "Cool" then 3
           else if classify_temperature w.temperature = "Moderate" then 2
           else if classify_temperature w.temperature = "Warm" then 3
           else 4)
    ∧ (∀ i ∈ get_temperature_items (classify_temperature w.temperature) w,
        1 ≤ i.priority ∧ i.priority ≤ 3)
    ∧ ∃ i rest pre post,
        get_temperature_items (classify_temperature w.temperature) w = i :: rest
        ∧ i.reason = pre ++ formatF0 w.temperature ++ post := by
  refine ⟨classify_temperature_cases _, ?_, temp_items_priority _ _, ?_⟩
  · rw [temp_items_length]
    unfold tempNames
    split_ifs <;> rfl
  · rcases classify_temperature_cases w.temperature with hc | hc | hc | hc | hc <;>
      rw [hc]
    · exact ⟨_, _, "Essential for ", "°F freezing temperatures", rfl, rfl⟩
    · exact ⟨_, _, "Appropriate for ", "°F cool weather", rfl, rfl⟩
    · exact ⟨_, _, "Perfect for ", "°F mild temperatures", rfl, rfl⟩
    · exact ⟨_, _, "Comfortable for ", "°F warm weather", rfl, rfl⟩
    · exact ⟨_, _, "Essential for ", "°F hot weather", rfl, rfl⟩

/-- C5 witness: the amended bundle properties instantiated at a
concrete 10°F input. -/
theorem C5_temperature_bundles_witness :
    (get_temperature_items (classify_temperature wWinter10.temperature)
      wWinter10).length = 4
    ∧ (1 ≤ (⟨"Insulated boots", .footwear, "Keeps feet warm and dry", 2⟩
          : ClothingItem).priority
        ∧ (⟨"Insulated boots", .footwear, "Keeps feet warm and dry", 2⟩
          : ClothingItem).priority ≤ 3) := by
  have h := C5_temperature_bundles wWinter10
  refine ⟨?_, h.2.2.1 _ (by decide)⟩
  rw [h.2.1]
  decide

/-- C6: with snow, the generator adds the waterproof boots footwear item
(priority 1), adds the waterproof gloves accessories item (priority 1)
exactly when the category is not Winter, and records the snow
consideration. -/
theorem C6_snow_rule (w : WeatherData) (h : w.precipitation_type = some "snow") :
    (∃ i ∈ candidateItems w, i.name = "Waterproof winter boots"
        ∧ i.category = ClothingCategory.footwear ∧ i.priority = 1)
    ∧ (classify_temperature w.temperature ≠ "Winter" →
        ∃ i ∈ candidateItems w, i.name = "Waterproof gloves"
          ∧ i.category = ClothingCategory.accessories ∧ i.priority = 1)
    ∧ (classify_temperature w.temperature = "Winter" →
        ∀ i ∈ candidateItems w, i.name ≠ "Waterproof gloves")
    ∧ "Precipitation expected: snow"
        ∈ (generate_recommendations w).special_considerations := by
  have ht : strTruthy w.precipitation_type = true := by rw [h]; rfl
  have hg : w.precipitation_type.getD "" = "snow" := by rw [h]; rfl
  have hsnow : ∀ cat, get_precipitation_items "snow" cat
      = ⟨"Waterproof winter boots", .footwear, "Essential for snow and slush", 1⟩ ::
        (if cat ≠ "Winter" then
          [⟨"Waterproof gloves", .accessories, "Keeps hands warm and dry in snow", 1⟩]
        else []) := by
    intro cat
    unfold get_precipitation_items PRECIP_TYPE_RAIN PRECIP_TYPE_SNOW
    simp
  refine ⟨?_, ?_, ?_, ?_⟩
  · refine ⟨⟨"Waterproof winter boots", .footwear,
      "Essential for snow and slush", 1⟩, ?_, rfl, rfl, rfl⟩
    rw [candidateItems_eq]
    refine List.mem_append_right _ (List.mem_append_left _ ?_)
    rw [if_pos ht, hg, hsnow]
    exact List.mem_cons_self _ _
  · intro hc
    refine ⟨⟨"Waterproof gloves", .accessories,
      "Keeps hands warm and dry in snow", 1⟩, ?_, rfl, rfl, rfl⟩
    rw [candidateItems_eq]
    refine List.mem_append_right _ (List.mem_append_left _ ?_)
    rw [if_pos ht, hg, hsnow, if_pos hc]
    exact List.mem_cons_of_mem _ (List.mem_cons_self _ _)
  · intro hc i hi
    rw [candidateItems_eq, hc] at hi
    rcases List.mem_append.mp hi with h1 | h1
    · unfold get_temperature_items at h1
      rw [if_pos rfl] at h1
      simp at h1
      rcases h1 with rfl | rfl | rfl | rfl <;> simp
    · rcases List.mem_append.mp h1 with h2 | h2
      · rw [if_pos ht, hg, hsnow, if_neg (by simp)] at h2
        simp at h2
        rw [h2]
        simp
      · by_cases hb : WIND_THRESHOLD_BREEZY < w.wind_speed
        · rw [if_pos hb] at h2
          unfold get_wind_items at h2
          split_ifs at h2 <;> simp at h2 <;> rw [h2] <;> simp
        · rw [if_neg hb] at h2
          simp at h2
  · rw [generate_considerations_eq]
    unfold specialConsiderations
    rw [if_pos ht, hg]
    simp

/-- A concrete cool snowy input used by the C6 witness. -/
def wCoolSnow : WeatherData :=
  { zip_code := "02134", location := "Boston", temperature := 40, feels_like := 35,
    humidity := 60, wind_speed := 5, description := "snow",
    precipitation_type := some "snow" }

/-- C6 witness: the snow rule instantiated at a concrete 40°F snowy
input (category Cool, so the gloves item is present). -/
theorem C6_snow_rule_witness :
    (∃ i ∈ candidateItems wCoolSnow, i.name = "Waterproof winter boots"
        ∧ i.category = ClothingCategory.footwear ∧ i.priority = 1)
    ∧ (∃ i ∈ candidateItems wCoolSnow, i.name = "Waterproof gloves"
        ∧ i.category = ClothingCategory.accessories ∧ i.priority = 1)
    ∧ "Precipitation expected: snow"
        ∈ (generate_recommendations wCoolSnow).special_considerations := by
  have h := C6_snow_rule wCoolSnow rfl
  exact ⟨h.1, h.2.1 (by decide), h.2.2.2⟩

/-- C7: wind handling triggers only above 15 mph; above 25 mph exactly
one priority-1 outerwear item is added whose wording depends on a cold
category, with the high-wind note; otherwise (15, 25] adds the
priority-2 windbreaker only for Winter/Cool/Moderate, with the breezy
note; at or below 15 mph neither wind note appears. -/
theorem C7_wind_rules (w : WeatherData) :
    (WIND_THRESHOLD_WINDY < w.wind_speed →
      get_wind_items w.wind_speed (classify_temperature w.temperature)
        = (if classify_temperature w.temperature = "Winter"
              ∨ classify_temperature w.temperature = "Cool" then
            [⟨"Wind-resistant outer layer", ClothingCategory.outerwear,
              "Blocks " ++ formatF0 w.wind_speed ++ " mph winds", 1⟩]
          else
            [⟨"Windbreaker", ClothingCategory.outerwear,
              "Protection from " ++ formatF0 w.wind_speed ++ " mph winds", 1⟩])
      ∧ "High winds expected"
          ∈ (generate_recommendations w).special_considerations)
    ∧ (WIND_THRESHOLD_BREEZY < w.wind_speed
        ∧ w.wind_speed ≤ WIND_THRESHOLD_WINDY →
      get_wind_items w.wind_speed (classify_temperature w.temperature)
        = (if classify_temperature w.temperature = "Winter"
              ∨ classify_temperature w.temperature = "Cool"
              ∨ classify_temperature w.temperature = "Moderate" then
            [⟨"Light windbreaker or jacket", ClothingCategory.outerwear,
              "Light wind protection for breezy conditions", 2⟩]
          else [])
      ∧ "Breezy conditions"
          ∈ (generate_recommendations w).special_considerations)
    ∧ (w.wind_speed ≤ WIND_THRESHOLD_BREEZY →
      "High winds expected"
          ∉ (generate_recommendations w).special_considerations
      ∧ "Breezy conditions"
          ∉ (generate_recommendations w).special_considerations) := by
  refine ⟨?_, ?_, ?_⟩
  · intro hw
    have hb : WIND_THRESHOLD_BREEZY < w.wind_speed := by
      unfold WIND_THRESHOLD_BREEZY WIND_THRESHOLD_WINDY at *
      linarith
    constructor
    · unfold get_wind_items
      rw [if_pos hw]
    · rw [generate_considerations_eq]
      unfold specialConsiderations
      rw [if_pos hb, if_pos hw]
      simp
  · rintro ⟨hb, hw⟩
    have hw' : ¬ WIND_THRESHOLD_WINDY < w.wind_speed := not_lt.mpr hw
    constructor
    · unfold get_wind_items
      rw [if_neg hw']
    · rw [generate_considerations_eq]
      unfold specialConsiderations
      rw [if_pos hb, if_neg hw']
      simp
  · intro hle
    have hb : ¬ WIND_THRESHOLD_BREEZY < w.wind_speed := not_lt.mpr hle
    rw [generate_considerations_eq]
    unfold specialConsiderations
    rw [if_neg hb]
    constructor
    · simp only [List.append_nil, List.mem_append]
      rintro (hmem | hmem)
      · split_ifs at hmem with hp
        · simp at hmem
          have hlen := congrArg String.length hmem
          rw [String.length_append] at hlen
          have h24 : ("Precipitation expected: " : String).length = 24 := by decide
          have h19 : ("High winds expected" : String).length = 19 := by decide
          rw [h24, h19] at hlen
          omega
        · simp at hmem
      · split_ifs at hmem with hp
        · simp at hmem
        · simp at hmem
    · simp only [List.append_nil, List.mem_append]
      rintro (hmem | hmem)
      · split_ifs at hmem with hp
        · simp at hmem
          have hlen := congrArg String.length hmem
          rw [String.length_append] at hlen
          have h24 : ("Precipitation expected: " : String).length = 24 := by decide
          have h17 : ("Breezy conditions" : String).length = 17 := by decide
          rw [h24, h17] at hlen
          omega
        · simp at hmem
      · split_ifs at hmem with hp
        · simp at hmem
        · simp at hmem

/-- A concrete high-wind input used by the C7 witness. -/
def wModerateGale : WeatherData :=
  { zip_code := "60601", location := "Chicago", temperature := 60, feels_like := 55,
    humidity := 40, wind_speed := 30, description := "windy" }

/-- A concrete breezy input used by the C7 witness. -/
def wCoolBreeze : WeatherData :=
  { zip_code := "60601", location := "Chicago", temperature := 40, feels_like := 37,
    humidity := 40, wind_speed := 20, description := "breezy" }

/-- A concrete calm input used by the C7 witness. -/
def wCalm : WeatherData :=
  { zip_code := "60601", location := "Chicago", temperature := 60, feels_like := 60,
    humidity := 40, wind_speed := 5, description := "calm" }

/-- C7 witness: the three wind branches at 30 mph (Moderate), 20 mph
(Cool) and 5 mph. -/
theorem C7_wind_rules_witness :
    get_wind_items wModerateGale.wind_speed
        (classify_temperature wModerateGale.temperature)
      = [⟨"Windbreaker", ClothingCategory.outerwear,
          "Protection from " ++ formatF0 wModerateGale.wind_speed ++ " mph winds", 1⟩]
    ∧ "High winds expected"
        ∈ (generate_recommendations wModerateGale).special_considerations
    ∧ get_wind_items wCoolBreeze.wind_speed
        (classify_temperature wCoolBreeze.temperature)
      = [⟨"Light windbreaker or jacket", ClothingCategory.outerwear,
          "Light wind protection for breezy conditions", 2⟩]
    ∧ "Breezy conditions"
        ∈ (generate_recommendations wCoolBreeze).special_considerations
    ∧ "High winds expected"
        ∉ (generate_recommendations wCalm).special_considerations
    ∧ "Breezy conditions"
        ∉ (generate_recommendations wCalm).special_considerations := by
  have h1 := (C7_wind_rules wModerateGale).1 (by decide)
  have h2 := (C7_wind_rules wCoolBreeze).2.1 ⟨by decide, by decide⟩
  have h3 := (C7_wind_rules wCalm).2.2 (by decide)
  refine ⟨?_, h1.2, ?_, h2.2, h3.1, h3.2⟩
  · rw [h1.1, if_neg (by decide)]
  · rw [h2.1, if_pos (by decide)]

/-- The summary template as the spec words it (§4.5): precipitation
clause present iff `precipitation_type` is present, then the wind clause
iff `wind_speed > 15.0`, then the fixed closing advice. -/
def summary_spec (w : WeatherData) : String :=
  "For " ++ w.location ++ " at " ++ formatF0 w.temperature ++ "°F ("
    ++ strLower (classify_temperature w.temperature) ++ " weather)"
    ++ (match w.precipitation_type with
        | some p => " with " ++ p
        | none => "")
    ++ (if WIND_THRESHOLD_BREEZY < w.wind_speed then
          " and " ++ formatF0 w.wind_speed ++ " mph winds"
        else "")
    ++ ": dress in layers appropriate for the conditions."

/-- C8: for every WeatherData whose precipitation kind is from the
model's closed set (absent, rain or snow), the generated summary is
exactly the spec's template string. -/
theorem C8_summary (w : WeatherData)
    (h : w.precipitation_type = none ∨ w.precipitation_type = some "rain"
      ∨ w.precipitation_type = some "snow") :
    (generate_recommendations w).summary = summary_spec w := by
  show generate_summary (classify_temperature w.temperature) w
      (specialConsiderations w) = summary_spec w
  unfold generate_summary summary_spec
  rcases h with h | h | h <;> rw [h] <;>
    apply String.ext <;>
    by_cases hb : WIND_THRESHOLD_BREEZY < w.wind_speed <;>
      simp [hb, strTruthy, String.data_append]

/-- A concrete rainy, breezy input used by the C8 witness. -/
def wRain55 : WeatherData :=
  { zip_code := "98101", location := "Seattle", temperature := 55, feels_like := 53,
    humidity := 80, wind_speed := 20, description := "light rain",
    precipitation_type := some "rain" }

/-- C8 witness: at 55°F with rain and 20 mph wind the summary contains
both clauses, precipitation before wind. -/
theorem C8_summary_witness :
    (generate_recommendations wRain55).summary = summary_spec wRain55
    ∧ summary_spec wRain55
      = "For Seattle at 55°F (moderate weather) with rain and 20 mph winds: dress in layers appropriate for the conditions." := by
  refine ⟨C8_summary wRain55 (Or.inr (Or.inl rfl)), ?_⟩
  decide

/-- C10: with a valid precipitation kind, the candidate list entering
count enforcement falls below 3 items exactly in the Moderate/no
precipitation/low wind case; there it has exactly 2 items and the
padding loop runs once, appending the priority-3 "Comfortable shoes"
footwear item for a final count of 3. -/
theorem C10_padding_reachability (w : WeatherData)
    (hv : w.precipitation_type = none ∨ w.precipitation_type = some "rain"
      ∨ w.precipitation_type = some "snow") :
    (50 ≤ w.temperature → w.temperature < 70 → w.precipitation_type = none →
      w.wind_speed ≤ WIND_THRESHOLD_BREEZY →
      (dedupe_and_prioritize (candidateItems w)).length = 2
      ∧ (generate_recommendations w).items
          = dedupe_and_prioritize (candidateItems w)
            ++ [⟨"Comfortable shoes", ClothingCategory.footwear,
                "Appropriate footwear for the weather", 3⟩]
      ∧ (generate_recommendations w).items.length = 3)
    ∧ ((dedupe_and_prioritize (candidateItems w)).length < 3 →
      classify_temperature w.temperature = "Moderate"
      ∧ 50 ≤ w.temperature ∧ w.temperature < 70
      ∧ w.precipitation_type = none
      ∧ w.wind_speed ≤ WIND_THRESHOLD_BREEZY) := by
  constructor
  · intro h50 h70 hp hw
    have hcat : classify_temperature w.temperature = "Moderate" := by
      unfold classify_temperature
      rw [if_neg (by linarith), if_neg (by linarith), if_pos h70]
    have ht : strTruthy w.precipitation_type = false := by rw [hp]; rfl
    have hcand : candidateItems w = get_temperature_items "Moderate" w := by
      rw [candidateItems_eq, hcat, if_neg (by simp [ht]),
        if_neg (not_lt.mpr hw)]
      simp
    have hded : dedupe_and_prioritize (candidateItems w)
        = [⟨"Long-sleeve shirt or light layers", .layers,
            "Versatile for changing conditions", 1⟩,
           ⟨"Light jacket or cardigan", .outerwear,
            "Perfect for " ++ formatF0 w.temperature ++ "°F mild temperatures", 2⟩] := by
      show sortByPriority (dedupeAux [] (candidateItems w)) = _
      rw [hcand]
      obtain ⟨heq, -⟩ := dedupeAux_eq_self (get_temperature_items "Moderate" w) []
        (by rw [lowerNames_temp]; exact tempNames_nodup _) (by simp)
      rw [heq]
      exact sort_moderate w
    have hitems : (generate_recommendations w).items
        = dedupe_and_prioritize (candidateItems w)
          ++ [⟨"Comfortable shoes", ClothingCategory.footwear,
              "Appropriate footwear for the weather", 3⟩] := by
      rw [generate_items_eq, hcat, hded, enforce_moderate_pair]
      rfl
    refine ⟨by rw [hded]; rfl, hitems, ?_⟩
    rw [hitems, List.length_append, hded]
    rfl
  · intro h
    obtain ⟨hcat, hP, hW, heq⟩ := dedupe_prioritize_short w h
    have hrange : 50 ≤ w.temperature ∧ w.temperature < 70 := by
      unfold classify_temperature at hcat
      split_ifs at hcat with h1 h2 h3
      · exact absurd hcat (by decide)
      · exact absurd hcat (by decide)
      · exact ⟨le_of_not_lt h2, h3⟩
      · exact absurd hcat (by decide)
      · exact absurd hcat (by decide)
    have hp : w.precipitation_type = none := by
      rcases hv with hv | hv | hv
      · exact hv
      · exfalso
        rw [hv] at hP
        simp [strTruthy, get_precipitation_items, PRECIP_TYPE_RAIN,
          PRECIP_TYPE_SNOW] at hP
      · exfalso
        rw [hv] at hP
        simp [strTruthy, get_precipitation_items, PRECIP_TYPE_RAIN,
          PRECIP_TYPE_SNOW] at hP
    have hw : w.wind_speed ≤ WIND_THRESHOLD_BREEZY := by
      by_contra hgt
      rw [if_pos (not_le.mp hgt)] at hW
      unfold get_wind_items at hW
      split_ifs at hW
      all_goals simp_all
    exact ⟨hcat, hrange.1, hrange.2, hp, hw⟩

/-- C10 witness: at 60°F, no precipitation and 5 mph wind, enforcement
pads the two Moderate items with "Comfortable shoes" for a final 3. -/
theorem C10_padding_witness :
    (dedupe_and_prioritize (candidateItems wCalm)).length = 2
    ∧ (generate_recommendations wCalm).items.length = 3
    ∧ (generate_recommendations wCalm).items
        = dedupe_and_prioritize (candidateItems wCalm)
          ++ [⟨"Comfortable shoes", ClothingCategory.footwear,
              "Appropriate footwear for the weather", 3⟩] := by
  have h := (C10_padding_reachability wCalm (Or.inl rfl)).1
    (by decide) (by decide) rfl (by decide)
  exact ⟨h.1, h.2.2, h.2.1⟩
